import Mathlib

/-!
Verification of the haptic-feedback device layer of the repository.

The Python modules `src/devices/vibration_patterns.py`,
`src/devices/base_controller.py`, `src/devices/arduino_controller.py` and
`src/devices/websocket_controller.py` are embedded shallowly:

* Python `float` values (vibration intensities, emotion axes) are modelled
  as rationals (ℚ); Python `int` values as ℤ (or ℕ for loop counters).
* A dataclass whose `__post_init__` may raise `ValueError` is modelled as a
  plain structure together with a constructor returning
  `Except String _` that performs the same checks in the same order.
* The asynchronous controller send loops are modelled as pure functions
  over an oracle giving the outcome of each transport attempt; the pair
  they return is (python return value, number of transport attempts made).
-/

/-- A single step of a vibration pattern (`VibrationStep` in
`vibration_patterns.py`): an intensity in 0.0-1.0 and a duration in
milliseconds. -/
structure VibrationStep where
  intensity : ℚ
  duration_ms : ℤ
deriving DecidableEq, Repr

/-- Constructor for `VibrationStep`, performing the checks of
`VibrationStep.__post_init__` in source order: intensity must lie in
[0.0, 1.0], duration must be nonnegative and at most 10000 ms. -/
def mkVibrationStep (intensity : ℚ) (duration_ms : ℤ) : Except String VibrationStep :=
  if ¬ (0 ≤ intensity ∧ intensity ≤ 1) then
    Except.error "intensity out of range 0.0-1.0"
  else if duration_ms < 0 then
    Except.error "duration_ms negative"
  else if duration_ms > 10000 then
    Except.error "duration_ms longer than 10 seconds"
  else
    Except.ok ⟨intensity, duration_ms⟩

/-- A vibration pattern (`VibrationPattern` in `vibration_patterns.py`):
a list of steps, an inter-repeat interval in ms and a repeat count. -/
structure VibrationPattern where
  steps : List VibrationStep
  interval_ms : ℤ
  repeat_count : ℤ
deriving DecidableEq, Repr

/-- Constructor for `VibrationPattern`, performing the checks of
`VibrationPattern.__post_init__` in source order: steps non-empty,
interval in [0, 10000], repeat count in [1, 100]. -/
def mkVibrationPattern (steps : List VibrationStep) (interval_ms : ℤ)
    (repeat_count : ℤ) : Except String VibrationPattern :=
  if steps = [] then
    Except.error "a vibration pattern needs at least one step"
  else if interval_ms < 0 then
    Except.error "interval_ms negative"
  else if interval_ms > 10000 then
    Except.error "interval_ms longer than 10 seconds"
  else if repeat_count < 1 then
    Except.error "repeat_count below 1"
  else if repeat_count > 100 then
    Except.error "repeat_count above 100"
  else
    Except.ok ⟨steps, interval_ms, repeat_count⟩

/-- Validity of a step: exactly the conditions checked by
`VibrationStep.__post_init__`. -/
def ValidStep (s : VibrationStep) : Prop :=
  0 ≤ s.intensity ∧ s.intensity ≤ 1 ∧ 0 ≤ s.duration_ms ∧ s.duration_ms ≤ 10000

instance : DecidablePred ValidStep := fun s => by
  unfold ValidStep
  infer_instance

/-- Validity of a pattern: the conditions checked by
`VibrationPattern.__post_init__`, together with validity of every step
(each step was itself constructed through `VibrationStep`). -/
def ValidPattern (p : VibrationPattern) : Prop :=
  p.steps ≠ [] ∧ 0 ≤ p.interval_ms ∧ p.interval_ms ≤ 10000 ∧
    1 ≤ p.repeat_count ∧ p.repeat_count ≤ 100 ∧ ∀ s ∈ p.steps, ValidStep s

instance : DecidablePred ValidPattern := fun p => by
  unfold ValidPattern
  infer_instance

/-- Dictionary representation of a single step, as handled by
`to_dict`/`from_dict`: the numeric fields are optional because a Python
dict may carry the current key (duration_ms), the legacy key (duration),
both, or neither. -/
structure StepDict where
  intensity : ℚ
  duration_ms : Option ℤ
  duration : Option ℤ
deriving DecidableEq, Repr

/-- Dictionary representation of a whole pattern, with current and legacy
keys both modelled as optional fields. -/
structure PatternDict where
  steps : List StepDict
  interval_ms : Option ℤ
  interval : Option ℤ
  repeat_count : Option ℤ
  repetitions : Option ℤ
deriving DecidableEq, Repr

/-- Serialization `VibrationPattern.to_dict`: it emits only the legacy
keys (duration, interval, repetitions). -/
def VibrationPattern.to_dict (p : VibrationPattern) : PatternDict :=
  ⟨p.steps.map (fun s => ⟨s.intensity, none, some s.duration_ms⟩),
    none, some p.interval_ms, none, some p.repeat_count⟩

/-- Left-to-right effectful map over `Except`, modelling a Python list
comprehension whose element expression may raise: the first failure
propagates. -/
def mapExcept (f : α → Except ε β) : List α → Except ε (List β)
  | [] => Except.ok []
  | x :: xs =>
    match f x with
    | Except.error e => Except.error e
    | Except.ok y =>
      match mapExcept f xs with
      | Except.error e => Except.error e
      | Except.ok ys => Except.ok (y :: ys)

/-- Deserialization `VibrationPattern.from_dict`: each step reads
duration_ms, falling back to duration then to 0; the pattern reads
interval_ms falling back to interval then 0, and repeat_count falling back
to repetitions then 1. Construction re-runs the dataclass validation. -/
def VibrationPattern.from_dict (d : PatternDict) : Except String VibrationPattern :=
  match mapExcept
      (fun sd => mkVibrationStep sd.intensity (sd.duration_ms.getD (sd.duration.getD 0)))
      d.steps with
  | Except.error e => Except.error e
  | Except.ok steps =>
    mkVibrationPattern steps (d.interval_ms.getD (d.interval.getD 0))
      (d.repeat_count.getD (d.repetitions.getD 1))

/-- The emotion parameter model (`Emotion` in `data_models.py`): four
independent axes. The source field named fun is rendered fun_ because fun
is a Lean keyword. -/
structure Emotion where
  joy : ℚ
  fun_ : ℚ
  anger : ℚ
  sad : ℚ
deriving DecidableEq, Repr

/-- Builds a list of validated steps from (intensity, duration) pairs,
modelling the list literal of `VibrationStep(...)` calls: evaluation is
left to right and the first `ValueError` propagates. -/
def mkSteps (l : List (ℚ × ℤ)) : Except String (List VibrationStep) :=
  mapExcept (fun p => mkVibrationStep p.1 p.2) l

/-- Pattern generator `EmotionVibrationPatterns.joy_pattern`: three equal
200 ms steps, intensity raised by 0.1 in the middle, with tier-dependent
base intensity and repeat count. -/
def EmotionVibrationPatterns.joy_pattern (intensity_level : ℚ) :
    Except String VibrationPattern :=
  let base_intensity : ℚ := 0.6
  let base_duration : ℤ := 200
  let base_interval : ℤ := 100
  let base_repetitions : ℤ := 3
  let intensity : ℚ :=
    if intensity_level ≥ 4 then base_intensity + 0.2
    else if intensity_level ≤ 1 then 0.5
    else base_intensity
  let repetitions : ℤ :=
    if intensity_level ≥ 4 then 5
    else if intensity_level ≤ 1 then 2
    else base_repetitions
  match mkSteps
      [(intensity, base_duration),
       (min (intensity + 0.1) 1, base_duration),
       (intensity, base_duration)] with
  | Except.error e => Except.error e
  | Except.ok steps => mkVibrationPattern steps base_interval repetitions

/-- Pattern generator `EmotionVibrationPatterns.anger_pattern`: four short
alternating steps with tier-dependent intensity and interval, repeated 4
times. -/
def EmotionVibrationPatterns.anger_pattern (intensity_level : ℚ) :
    Except String VibrationPattern :=
  let base_intensity : ℚ := 0.9
  let base_duration : ℤ := 100
  let base_interval : ℤ := 50
  let base_repetitions : ℤ := 4
  let intensity : ℚ :=
    if intensity_level ≥ 4 then 1
    else if intensity_level ≤ 1 then 0.7
    else base_intensity
  let interval : ℤ :=
    if intensity_level ≥ 4 then 30
    else if intensity_level ≤ 1 then 80
    else base_interval
  match mkSteps
      [(intensity, base_duration),
       (min (intensity + 0.1) 1, max (base_duration - 20) 50),
       (intensity, base_duration),
       (min (intensity + 0.1) 1, max (base_duration - 20) 50)] with
  | Except.error e => Except.error e
  | Except.ok steps => mkVibrationPattern steps interval base_repetitions

/-- Pattern generator `EmotionVibrationPatterns.sorrow_pattern`: two long
steps of decreasing intensity. The source computes a tier-dependent local
interval (200 ms at the high tier) but the returned pattern uses
base_interval, exactly as the source does. -/
def EmotionVibrationPatterns.sorrow_pattern (intensity_level : ℚ) :
    Except String VibrationPattern :=
  let base_intensity : ℚ := 0.5
  let base_duration : ℤ := 500
  let base_interval : ℤ := 300
  let base_repetitions : ℤ := 2
  let intensity : ℚ :=
    if intensity_level ≥ 4 then 0.6
    else if intensity_level ≤ 1 then 0.5
    else base_intensity
  let duration : ℤ :=
    if intensity_level ≥ 4 then 700
    else if intensity_level ≤ 1 then 300
    else base_duration
  let interval : ℤ :=
    if intensity_level ≥ 4 then 200
    else base_interval
  match mkSteps
      [(intensity, duration),
       (max (intensity - 0.1) 0.5, duration + 100)] with
  | Except.error e => Except.error e
  | Except.ok steps =>
    -- The source returns interval_ms=base_interval; the local interval
    -- computed above is never used.
    let _ := interval
    mkVibrationPattern steps base_interval base_repetitions

/-- Pattern generator `EmotionVibrationPatterns.pleasure_pattern`: a
five-step symmetric swell whose peak depends on the tier. -/
def EmotionVibrationPatterns.pleasure_pattern (intensity_level : ℚ) :
    Except String VibrationPattern :=
  let base_intensity : ℚ := 0.6
  let base_repetitions : ℤ := 3
  let base_interval : ℤ := 150
  let max_intensity : ℚ :=
    if intensity_level ≥ 4 then 0.7
    else if intensity_level ≤ 1 then 0.5
    else 0.6
  match mkSteps
      [(0.5, 250),
       (base_intensity, 300),
       (max_intensity, 350),
       (base_intensity, 300),
       (0.5, 250)] with
  | Except.error e => Except.error e
  | Except.ok steps => mkVibrationPattern steps base_interval base_repetitions

/-- Descending comparison on (name, value) pairs used to model Python
sorted with a value key and reverse=True; insertion sort with this
relation is a stable descending sort, matching Python list sorting. -/
def descByValue (a b : String × ℚ) : Prop := b.2 ≤ a.2

instance : DecidableRel descByValue := fun a b =>
  inferInstanceAs (Decidable (b.2 ≤ a.2))

instance : IsTotal (String × ℚ) descByValue :=
  ⟨fun a b => (le_total b.2 a.2).imp id id⟩

instance : IsTrans (String × ℚ) descByValue :=
  ⟨fun _ _ _ h1 h2 => le_trans h2 h1⟩

/-- The fixed-order association list of emotion axes built at the start of
`VibrationPatternGenerator.get_dominant_emotions`. -/
def VibrationPatternGenerator.emotion_values (emotion : Emotion) : List (String × ℚ) :=
  [("joy", emotion.joy), ("fun", emotion.fun_),
   ("anger", emotion.anger), ("sad", emotion.sad)]

/-- `VibrationPatternGenerator.get_dominant_emotions`: the axes whose value
is at least the threshold, sorted descending by value with Python sorted
(a stable sort, modelled by insertion sort). -/
def VibrationPatternGenerator.get_dominant_emotions (emotion : Emotion)
    (threshold : ℚ) : List (String × ℚ) :=
  let dominant :=
    (VibrationPatternGenerator.emotion_values emotion).filter
      (fun x => threshold ≤ x.2)
  List.insertionSort descByValue dominant

/-- `VibrationPatternGenerator.map_emotion_to_category`: fixed axis-name to
category table, defaulting to joy. -/
def VibrationPatternGenerator.map_emotion_to_category (emotion_name : String) : String :=
  if emotion_name = "joy" then "joy"
  else if emotion_name = "fun" then "pleasure"
  else if emotion_name = "anger" then "anger"
  else if emotion_name = "sad" then "sorrow"
  else "joy"

/-- The no-override branch of `VibrationPatternGenerator.generate_pattern`:
dominant-emotion dispatch with the default threshold 2, falling back to a
single quiet pulse when no axis is significant. -/
def VibrationPatternGenerator.generate_from_dominant (emotion : Emotion) :
    Except String VibrationPattern :=
  match VibrationPatternGenerator.get_dominant_emotions emotion 2 with
  | [] =>
    match mkVibrationStep 0.5 300 with
    | Except.error e => Except.error e
    | Except.ok s => mkVibrationPattern [s] 200 1
  | (primary_emotion, primary_intensity) :: _ =>
    let primary_category :=
      VibrationPatternGenerator.map_emotion_to_category primary_emotion
    if primary_category = "joy" then
      EmotionVibrationPatterns.joy_pattern primary_intensity
    else if primary_category = "anger" then
      EmotionVibrationPatterns.anger_pattern primary_intensity
    else if primary_category = "sorrow" then
      EmotionVibrationPatterns.sorrow_pattern primary_intensity
    else if primary_category = "pleasure" then
      EmotionVibrationPatterns.pleasure_pattern primary_intensity
    else
      EmotionVibrationPatterns.joy_pattern primary_intensity

/-- `VibrationPatternGenerator.generate_pattern`. A present but empty
category string is falsy in Python, so it takes the no-override branch;
a non-empty category is lowercased, translated from the Japanese labels,
and dispatched; an unknown category averages the axes with float floor
division and falls back to the joy pattern. -/
def VibrationPatternGenerator.generate_pattern (emotion : Emotion)
    (emotion_category : Option String) : Except String VibrationPattern :=
  match emotion_category with
  | none => VibrationPatternGenerator.generate_from_dominant emotion
  | some c =>
    if c = "" then VibrationPatternGenerator.generate_from_dominant emotion
    else
      let category0 := c.toLower
      let category :=
        if category0 = "喜" then "joy"
        else if category0 = "怒" then "anger"
        else if category0 = "哀" then "sorrow"
        else if category0 = "楽" then "pleasure"
        else category0
      let intensity_level : ℚ :=
        if category = "joy" then emotion.joy
        else if category = "anger" then emotion.anger
        else if category = "sorrow" then emotion.sad
        else if category = "pleasure" then emotion.fun_
        else
          ((Int.floor ((emotion.joy + emotion.fun_ + emotion.anger + emotion.sad) / 4) : ℤ) : ℚ)
      if category = "joy" then
        EmotionVibrationPatterns.joy_pattern intensity_level
      else if category = "anger" then
        EmotionVibrationPatterns.anger_pattern intensity_level
      else if category = "sorrow" then
        EmotionVibrationPatterns.sorrow_pattern intensity_level
      else if category = "pleasure" then
        EmotionVibrationPatterns.pleasure_pattern intensity_level
      else
        EmotionVibrationPatterns.joy_pattern intensity_level

/-- Python str.strip, modelled on the character list: leading and trailing
whitespace removed. -/
def pyStrip (s : String) : String :=
  List.asString
    (((s.toList.dropWhile Char.isWhitespace).reverse.dropWhile Char.isWhitespace).reverse)

/-- Configuration of a controller (`BaseControllerConfig` in
`base_controller.py`): pydantic field constraints port in [1, 65535],
timeout > 0, retry_count >= 0, retry_delay > 0, and the host validator,
which rejects an empty or all-whitespace host and stores the stripped
host. -/
structure BaseControllerConfig where
  host : String
  port : ℤ
  timeout : ℚ
  retry_count : ℤ
  retry_delay : ℚ
deriving DecidableEq, Repr

/-- Constructor for `BaseControllerConfig` running the pydantic
validation. -/
def mkBaseControllerConfig (host : String) (port : ℤ) (timeout : ℚ)
    (retry_count : ℤ) (retry_delay : ℚ) : Except String BaseControllerConfig :=
  if ¬ (1 ≤ port ∧ port ≤ 65535) then
    Except.error "port out of range"
  else if ¬ (0 < timeout) then
    Except.error "timeout must be positive"
  else if ¬ (0 ≤ retry_count) then
    Except.error "retry_count must be nonnegative"
  else if ¬ (0 < retry_delay) then
    Except.error "retry_delay must be positive"
  else if pyStrip host = "" then
    Except.error "host must not be empty"
  else
    Except.ok ⟨pyStrip host, port, timeout, retry_count, retry_delay⟩

/-- Outcome of one HTTP POST in `ArduinoController.send_pattern`: either a
response with a status code, or a raised exception (network error,
timeout, or any other exception — all are caught by the loop). -/
inductive HttpSendResult where
  | status (code : ℤ)
  | raises
deriving DecidableEq, Repr

/-- The part of an `ArduinoController`'s state that `send_pattern` reads:
the connected flag and the configured retry count. -/
structure ArduinoControllerState where
  connected : Bool
  retry_count : ℕ
deriving DecidableEq, Repr

/-- The retry loop of `ArduinoController.send_pattern` over attempts
`i, i+1, ...` with the given number of remaining iterations. Returns the
Python return value together with the number of POST attempts made. -/
def ArduinoController.send_pattern_loop (transport : ℕ → HttpSendResult) :
    ℕ → ℕ → Bool × ℕ
  | 0, _ => (false, 0)
  | k + 1, i =>
    match transport i with
    | HttpSendResult.status code =>
      if code = 200 then (true, 1)
      else
        let r := ArduinoController.send_pattern_loop transport k (i + 1)
        (r.1, r.2 + 1)
    | HttpSendResult.raises =>
      let r := ArduinoController.send_pattern_loop transport k (i + 1)
      (r.1, r.2 + 1)

/-- `ArduinoController.send_pattern`: returns False immediately when not
connected (making no transport attempt), otherwise runs the retry loop for
retry_count iterations. The pattern payload does not influence the control
flow (its conversion to the wire format is pure), so it is an unused
argument of the model. -/
def ArduinoController.send_pattern (st : ArduinoControllerState)
    (pattern : VibrationPattern) (transport : ℕ → HttpSendResult) : Bool × ℕ :=
  if st.connected = false then (false, 0)
  else ArduinoController.send_pattern_loop transport st.retry_count 0

/-- Outcome of one WebSocket send/receive in
`WebSocketController.send_pattern`: a JSON response whose status is ok or
not, or a raised exception, in which case the loop checks whether the
connection was lost and, if so, whether the reconnect succeeded. -/
inductive WsAttemptResult where
  | response (ok : Bool)
  | raises (connectionLost : Bool) (reconnected : Bool)
deriving DecidableEq, Repr

/-- The part of a `WebSocketController`'s state that `send_pattern`
reads. -/
structure WebSocketControllerState where
  connected : Bool
  retry_count : ℕ
deriving DecidableEq, Repr

/-- The retry loop of `WebSocketController.send_pattern`: an ok response
returns True; an exception with a lost connection and a failed reconnect
returns False at once; anything else moves to the next attempt. -/
def WebSocketController.send_pattern_loop (transport : ℕ → WsAttemptResult) :
    ℕ → ℕ → Bool × ℕ
  | 0, _ => (false, 0)
  | k + 1, i =>
    match transport i with
    | WsAttemptResult.response ok =>
      if ok then (true, 1)
      else
        let r := WebSocketController.send_pattern_loop transport k (i + 1)
        (r.1, r.2 + 1)
    | WsAttemptResult.raises lost reconnected =>
      if lost && !reconnected then (false, 1)
      else
        let r := WebSocketController.send_pattern_loop transport k (i + 1)
        (r.1, r.2 + 1)

/-- `WebSocketController.send_pattern`: returns False immediately when not
connected (making no transport attempt), otherwise runs the retry loop. -/
def WebSocketController.send_pattern (st : WebSocketControllerState)
    (pattern : VibrationPattern) (transport : ℕ → WsAttemptResult) : Bool × ℕ :=
  if st.connected = false then (false, 0)
  else WebSocketController.send_pattern_loop transport st.retry_count 0

/-- Outcome of one invocation of the operation passed to
`BaseController._retry_with_backoff`: a result value or a raised
exception. -/
inductive OpResult (α : Type) where
  | success (val : α)
  | raises

/-- The loop of `BaseController._retry_with_backoff`: runs the operation up
to retry_count times, returning the first successful result, or None after
exhausting the attempts. The pair's second component counts the
invocations of the operation. -/
def BaseController.retry_with_backoff (op : ℕ → OpResult α) :
    ℕ → ℕ → Option α × ℕ
  | 0, _ => (none, 0)
  | k + 1, i =>
    match op i with
    | OpResult.success v => (some v, 1)
    | OpResult.raises =>
      let r := BaseController.retry_with_backoff op k (i + 1)
      (r.1, r.2 + 1)

/-- C1: `VibrationStep` construction succeeds exactly when the intensity is
in [0.0, 1.0] and the duration is in [0, 10000], and `VibrationPattern`
construction succeeds exactly when the step list is non-empty, the interval
is in [0, 10000] and the repeat count is in [1, 100]; in every other case a
validation error is raised. -/
theorem vibration_construction_bounds (i : ℚ) (d : ℤ) (steps : List VibrationStep)
    (iv rc : ℤ) :
    ((mkVibrationStep i d).isOk = true ↔
      (0 ≤ i ∧ i ≤ 1 ∧ 0 ≤ d ∧ d ≤ 10000)) ∧
    ((mkVibrationPattern steps iv rc).isOk = true ↔
      (steps ≠ [] ∧ 0 ≤ iv ∧ iv ≤ 10000 ∧ 1 ≤ rc ∧ rc ≤ 100)) := by
  constructor
  · unfold mkVibrationStep
    split_ifs with h1 h2 h3
    · exact ⟨fun h => absurd h (by decide), fun h => absurd h.2.2.1 (by omega)⟩
    · exact ⟨fun h => absurd h (by decide), fun h => absurd h.2.2.2 (by omega)⟩
    · exact ⟨fun _ => ⟨h1.1, h1.2, by omega, by omega⟩, fun _ => rfl⟩
    · exact ⟨fun h => absurd h (by decide), fun h => absurd ⟨h.1, h.2.1⟩ h1⟩
  · unfold mkVibrationPattern
    split_ifs with h1 h2 h3 h4 h5
    · exact ⟨fun h => absurd h (by decide), fun h => absurd h1 h.1⟩
    · exact ⟨fun h => absurd h (by decide), fun h => absurd h.2.1 (by omega)⟩
    · exact ⟨fun h => absurd h (by decide), fun h => absurd h.2.2.1 (by omega)⟩
    · exact ⟨fun h => absurd h (by decide), fun h => absurd h.2.2.2.1 (by omega)⟩
    · exact ⟨fun h => absurd h (by decide), fun h => absurd h.2.2.2.2 (by omega)⟩
    · exact ⟨fun _ => ⟨h1, by omega, by omega, by omega, by omega⟩, fun _ => rfl⟩

/-- Constructing a step from the field values of an already-valid step
succeeds and returns that step. -/
theorem mkVibrationStep_of_valid (s : VibrationStep) (h : ValidStep s) :
    mkVibrationStep s.intensity s.duration_ms = Except.ok s := by
  obtain ⟨h1, h2, h3, h4⟩ := h
  unfold mkVibrationStep
  rw [if_neg (not_not_intro ⟨h1, h2⟩), if_neg (by omega), if_neg (by omega)]

/-- Constructing a pattern from the field values of an already-valid
pattern succeeds and returns that pattern. -/
theorem mkVibrationPattern_of_valid (p : VibrationPattern) (h : ValidPattern p) :
    mkVibrationPattern p.steps p.interval_ms p.repeat_count = Except.ok p := by
  obtain ⟨h1, h2, h3, h4, h5, _⟩ := h
  unfold mkVibrationPattern
  rw [if_neg h1, if_neg (by omega), if_neg (by omega), if_neg (by omega), if_neg (by omega)]

/-- Reading back the serialized steps of a list of valid steps returns
exactly that list. -/
theorem mapExcept_to_dict_steps (l : List VibrationStep) (h : ∀ s ∈ l, ValidStep s) :
    mapExcept
      (fun sd => mkVibrationStep sd.intensity (sd.duration_ms.getD (sd.duration.getD 0)))
      (l.map (fun s => (⟨s.intensity, none, some s.duration_ms⟩ : StepDict))) =
      Except.ok l := by
  induction l with
  | nil => rfl
  | cons s rest ih =>
    have hs := mkVibrationStep_of_valid s (h s (List.mem_cons_self s rest))
    have hrest := ih (fun t ht => h t (List.mem_cons_of_mem s ht))
    simp only [List.map_cons, mapExcept, Option.getD_none, Option.getD_some, hs, hrest]

/-- C2: for every validly constructed pattern, `from_dict` applied to
`to_dict` returns exactly the original pattern, although `to_dict` emits
the legacy keys duration, interval and repetitions. -/
theorem pattern_roundtrip (p : VibrationPattern) (h : ValidPattern p) :
    VibrationPattern.from_dict (VibrationPattern.to_dict p) = Except.ok p := by
  unfold VibrationPattern.from_dict VibrationPattern.to_dict
  simp only [mapExcept_to_dict_steps p.steps h.2.2.2.2.2, Option.getD_none, Option.getD_some]
  exact mkVibrationPattern_of_valid p h

/-- Concrete instantiation of the round-trip property. -/
theorem pattern_roundtrip_witness :
    ValidPattern ⟨[⟨1, 300⟩], 200, 1⟩ ∧
      VibrationPattern.from_dict (VibrationPattern.to_dict ⟨[⟨1, 300⟩], 200, 1⟩) =
        Except.ok ⟨[⟨1, 300⟩], 200, 1⟩ :=
  ⟨by decide, pattern_roundtrip ⟨[⟨1, 300⟩], 200, 1⟩ (by decide)⟩

/-- C3: for an emotion with anger=5 and the other axes 0 and no category
override, generate_pattern returns exactly the anger pattern at level 5:
four steps, repeat_count 4, interval_ms 30. -/
theorem generate_pattern_anger5 :
    VibrationPatternGenerator.generate_pattern ⟨0, 0, 5, 0⟩ none =
      EmotionVibrationPatterns.anger_pattern 5 ∧
    EmotionVibrationPatterns.anger_pattern 5 =
      Except.ok ⟨[⟨1, 100⟩, ⟨1, 80⟩, ⟨1, 100⟩, ⟨1, 80⟩], 30, 4⟩ := by
  constructor
  · have hdom : VibrationPatternGenerator.get_dominant_emotions ⟨0, 0, 5, 0⟩ 2 =
        [("anger", 5)] := by
      unfold VibrationPatternGenerator.get_dominant_emotions
        VibrationPatternGenerator.emotion_values
      norm_num [List.filter_cons, List.filter_nil, List.insertionSort, List.orderedInsert]
    unfold VibrationPatternGenerator.generate_pattern
      VibrationPatternGenerator.generate_from_dominant
    rw [hdom]
    simp [VibrationPatternGenerator.map_emotion_to_category]
  · have hmin : min ((1 : ℚ) + 0.1) 1 = 1 := by norm_num [min_def]
    unfold EmotionVibrationPatterns.anger_pattern
    norm_num [hmin, mkSteps, mapExcept, mkVibrationStep, mkVibrationPattern]
    exact fun h => absurd h (List.cons_ne_nil _ _)

/-- C4: for every emotion whose four axes are all strictly below the
default significance threshold 2, generate_pattern with no override
returns the single-step fallback pattern: one quiet step, repeat_count
1. -/
theorem generate_pattern_below_threshold (e : Emotion) (hj : e.joy < 2)
    (hf : e.fun_ < 2) (ha : e.anger < 2) (hs : e.sad < 2) :
    VibrationPatternGenerator.generate_pattern e none =
      Except.ok ⟨[⟨0.5, 300⟩], 200, 1⟩ := by
  have hdom : VibrationPatternGenerator.get_dominant_emotions e 2 = [] := by
    unfold VibrationPatternGenerator.get_dominant_emotions
      VibrationPatternGenerator.emotion_values
    simp [List.filter_cons, List.filter_nil, not_le.mpr hj, not_le.mpr hf,
      not_le.mpr ha, not_le.mpr hs, List.insertionSort]
  unfold VibrationPatternGenerator.generate_pattern
    VibrationPatternGenerator.generate_from_dominant
  rw [hdom]
  norm_num [mkVibrationStep, mkVibrationPattern]

/-- Concrete instantiation of the fallback property at all axes equal 1. -/
theorem generate_pattern_below_threshold_witness :
    VibrationPatternGenerator.generate_pattern ⟨1, 1, 1, 1⟩ none =
      Except.ok ⟨[⟨0.5, 300⟩], 200, 1⟩ :=
  generate_pattern_below_threshold ⟨1, 1, 1, 1⟩ (by decide) (by decide)
    (by decide) (by decide)

/-- C7 (amended): joy_pattern at an integer level 0-5 returns three 200 ms
steps whose middle intensity is the base raised by 0.1, repeated 5/3/2
times at the high/medium/low tier, with base intensity 0.8 at the high
tier, 0.6 at the medium tier, and 0.5 (not 0.6 - 0.2) at the low tier. -/
theorem joy_pattern_tiers (lvl : ℤ) (h0 : 0 ≤ lvl) (h5 : lvl ≤ 5) :
    EmotionVibrationPatterns.joy_pattern (lvl : ℚ) =
      (if 4 ≤ lvl then
        Except.ok ⟨[⟨0.8, 200⟩, ⟨0.9, 200⟩, ⟨0.8, 200⟩], 100, 5⟩
      else if lvl ≤ 1 then
        Except.ok ⟨[⟨0.5, 200⟩, ⟨0.6, 200⟩, ⟨0.5, 200⟩], 100, 2⟩
      else
        Except.ok ⟨[⟨0.6, 200⟩, ⟨0.7, 200⟩, ⟨0.6, 200⟩], 100, 3⟩) := by
  unfold EmotionVibrationPatterns.joy_pattern
  by_cases h4 : 4 ≤ lvl
  · have hq : (4 : ℚ) ≤ (lvl : ℚ) := by exact_mod_cast h4
    rw [if_pos h4]
    norm_num [ge_iff_le, hq, mkSteps, mapExcept, mkVibrationStep,
      mkVibrationPattern, min_def]
    exact fun h => absurd h (List.cons_ne_nil _ _)
  · have hq : ¬ ((4 : ℚ) ≤ (lvl : ℚ)) := by exact_mod_cast h4
    rw [if_neg h4]
    by_cases h1 : lvl ≤ 1
    · have hq1 : (lvl : ℚ) ≤ 1 := by exact_mod_cast h1
      rw [if_pos h1]
      norm_num [ge_iff_le, hq, hq1, mkSteps, mapExcept, mkVibrationStep,
        mkVibrationPattern, min_def]
      exact fun h => absurd h (List.cons_ne_nil _ _)
    · have hq1 : ¬ ((lvl : ℚ) ≤ 1) := by exact_mod_cast h1
      rw [if_neg h1]
      norm_num [ge_iff_le, hq, hq1, mkSteps, mapExcept, mkVibrationStep,
        mkVibrationPattern, min_def]
      exact fun h => absurd h (List.cons_ne_nil _ _)

/-- Concrete instantiation of the joy tier characterization at level 3. -/
theorem joy_pattern_tiers_witness :
    EmotionVibrationPatterns.joy_pattern ((3 : ℤ) : ℚ) =
      (if 4 ≤ (3 : ℤ) then
        Except.ok ⟨[⟨0.8, 200⟩, ⟨0.9, 200⟩, ⟨0.8, 200⟩], 100, 5⟩
      else if (3 : ℤ) ≤ 1 then
        Except.ok ⟨[⟨0.5, 200⟩, ⟨0.6, 200⟩, ⟨0.5, 200⟩], 100, 2⟩
      else
        Except.ok ⟨[⟨0.6, 200⟩, ⟨0.7, 200⟩, ⟨0.6, 200⟩], 100, 3⟩) :=
  joy_pattern_tiers 3 (by decide) (by decide)

/-- Counterexample to C7 as stated: at the low tier (level 0) the base
step intensity produced by the code is 0.5, which is not 0.6 - 0.2. -/
theorem joy_pattern_low_counterexample :
    EmotionVibrationPatterns.joy_pattern 0 =
      Except.ok ⟨[⟨0.5, 200⟩, ⟨0.6, 200⟩, ⟨0.5, 200⟩], 100, 2⟩ ∧
    (0.5 : ℚ) ≠ 0.6 - 0.2 := by
  constructor
  · unfold EmotionVibrationPatterns.joy_pattern
    norm_num [mkSteps, mapExcept, mkVibrationStep, mkVibrationPattern, min_def]
    exact fun h => absurd h (List.cons_ne_nil _ _)
  · norm_num

/-- C8 (amended): sorrow_pattern at an integer level 0-5 returns two steps
whose durations are 700/800, 300/400 or 500/600 ms by tier (the second is
always the first plus 100 ms, so at the high tier it exceeds 700 ms), with
the second intensity equal to the first minus 0.1 floored at 0.5, repeat
count 2, and interval_ms equal to 300 at every tier: the tier-dependent
200 ms interval the source computes is never used in the returned
pattern. -/
theorem sorrow_pattern_tiers (lvl : ℤ) (h0 : 0 ≤ lvl) (h5 : lvl ≤ 5) :
    EmotionVibrationPatterns.sorrow_pattern (lvl : ℚ) =
      (if 4 ≤ lvl then
        Except.ok ⟨[⟨0.6, 700⟩, ⟨0.5, 800⟩], 300, 2⟩
      else if lvl ≤ 1 then
        Except.ok ⟨[⟨0.5, 300⟩, ⟨0.5, 400⟩], 300, 2⟩
      else
        Except.ok ⟨[⟨0.5, 500⟩, ⟨0.5, 600⟩], 300, 2⟩) := by
  unfold EmotionVibrationPatterns.sorrow_pattern
  by_cases h4 : 4 ≤ lvl
  · have hq : (4 : ℚ) ≤ (lvl : ℚ) := by exact_mod_cast h4
    rw [if_pos h4]
    norm_num [ge_iff_le, hq, mkSteps, mapExcept, mkVibrationStep,
      mkVibrationPattern, max_def]
    exact fun h => absurd h (List.cons_ne_nil _ _)
  · have hq : ¬ ((4 : ℚ) ≤ (lvl : ℚ)) := by exact_mod_cast h4
    rw [if_neg h4]
    by_cases h1 : lvl ≤ 1
    · have hq1 : (lvl : ℚ) ≤ 1 := by exact_mod_cast h1
      rw [if_pos h1]
      norm_num [ge_iff_le, hq, hq1, mkSteps, mapExcept, mkVibrationStep,
        mkVibrationPattern, max_def]
      exact fun h => absurd h (List.cons_ne_nil _ _)
    · have hq1 : ¬ ((lvl : ℚ) ≤ 1) := by exact_mod_cast h1
      rw [if_neg h1]
      norm_num [ge_iff_le, hq, hq1, mkSteps, mapExcept, mkVibrationStep,
        mkVibrationPattern, max_def]
      exact fun h => absurd h (List.cons_ne_nil _ _)

/-- Concrete instantiation of the sorrow tier characterization at
level 2. -/
theorem sorrow_pattern_tiers_witness :
    EmotionVibrationPatterns.sorrow_pattern ((2 : ℤ) : ℚ) =
      (if 4 ≤ (2 : ℤ) then
        Except.ok ⟨[⟨0.6, 700⟩, ⟨0.5, 800⟩], 300, 2⟩
      else if (2 : ℤ) ≤ 1 then
        Except.ok ⟨[⟨0.5, 300⟩, ⟨0.5, 400⟩], 300, 2⟩
      else
        Except.ok ⟨[⟨0.5, 500⟩, ⟨0.5, 600⟩], 300, 2⟩) :=
  sorrow_pattern_tiers 2 (by decide) (by decide)

/-- Counterexample to C8 as stated: at the high tier (level 4) the second
step's duration is 800 ms, outside the claimed 300-700 ms range, and the
returned interval_ms is 300, not the claimed 200. -/
theorem sorrow_pattern_high_counterexample :
    EmotionVibrationPatterns.sorrow_pattern 4 =
      Except.ok ⟨[⟨0.6, 700⟩, ⟨0.5, 800⟩], 300, 2⟩ ∧
    ¬ ((800 : ℤ) ≤ 700) ∧ ((300 : ℤ) ≠ 200) := by
  refine ⟨?_, by decide, by decide⟩
  unfold EmotionVibrationPatterns.sorrow_pattern
  norm_num [mkSteps, mapExcept, mkVibrationStep, mkVibrationPattern, max_def]
  exact fun h => absurd h (List.cons_ne_nil _ _)

/-- The head of an insertion sort by descending value is an element of the
input list such that every element strictly before it in the input has a
strictly smaller value: insertion sort is stable, so the first maximal
element of the input becomes the head. -/
theorem insertionSort_descByValue_head (l : List (String × ℚ)) (x : String × ℚ)
    (h : (List.insertionSort descByValue l).head? = some x) :
    ∃ n, ∃ hn : n < l.length, l.get ⟨n, hn⟩ = x ∧
      ∀ m (hm : m < n), (l.get ⟨m, Nat.lt_trans hm hn⟩).2 < x.2 := by
  induction l with
  | nil => simp [List.insertionSort] at h
  | cons a xs ih =>
    have hsort : List.insertionSort descByValue (a :: xs) =
        List.orderedInsert descByValue a (List.insertionSort descByValue xs) := rfl
    rw [hsort] at h
    cases hS : List.insertionSort descByValue xs with
    | nil =>
      rw [hS] at h
      simp only [List.orderedInsert, List.head?] at h
      refine ⟨0, by simp, by simpa using Option.some.inj h, ?_⟩
      intro m hm
      exact absurd hm (Nat.not_lt_zero m)
    | cons b rest =>
      rw [hS] at h
      by_cases hab : descByValue a b
      · rw [List.orderedInsert, if_pos hab] at h
        simp only [List.head?] at h
        refine ⟨0, by simp, by simpa using Option.some.inj h, ?_⟩
        intro m hm
        exact absurd hm (Nat.not_lt_zero m)
      · rw [List.orderedInsert, if_neg hab] at h
        simp only [List.head?] at h
        have hb : b = x := Option.some.inj h
        have hxs : (List.insertionSort descByValue xs).head? = some x := by
          rw [hS, hb]
          rfl
        obtain ⟨n, hn, hget, hlt⟩ := ih hxs
        refine ⟨n + 1, Nat.succ_lt_succ hn, by simpa using hget, ?_⟩
        intro m hm
        cases m with
        | zero =>
          have hax : a.2 < b.2 := lt_of_not_le (fun hc => hab hc)
          simpa [hb] using hax.trans_eq (by rw [hb])
        | succ k =>
          have hk : k < n := Nat.lt_of_succ_lt_succ hm
          simpa using hlt k hk

set_option maxHeartbeats 1600000 in
/-- C9: get_dominant_emotions returns exactly the qualifying axes (a
permutation of the fixed-order list filtered by the threshold), sorted
descending by value; and its head — the axis generate_pattern dispatches
on — is a qualifying axis of maximal value such that every qualifying axis
listed before it in the fixed order joy, fun, anger, sad has a strictly
smaller value, so on ties the earlier axis of the fixed order wins. -/
theorem get_dominant_emotions_spec (e : Emotion) (t : ℚ) :
    (VibrationPatternGenerator.get_dominant_emotions e t).Perm
      ((VibrationPatternGenerator.emotion_values e).filter (fun x => t ≤ x.2)) ∧
    List.Sorted descByValue (VibrationPatternGenerator.get_dominant_emotions e t) ∧
    ∀ x, (VibrationPatternGenerator.get_dominant_emotions e t).head? = some x →
      (∀ z ∈ (VibrationPatternGenerator.emotion_values e).filter (fun y => t ≤ y.2),
        z.2 ≤ x.2) ∧
      ∃ n, ∃ hn : n < ((VibrationPatternGenerator.emotion_values e).filter
          (fun y => t ≤ y.2)).length,
        ((VibrationPatternGenerator.emotion_values e).filter (fun y => t ≤ y.2)).get
            ⟨n, hn⟩ = x ∧
        ∀ m (hm : m < n),
          (((VibrationPatternGenerator.emotion_values e).filter (fun y => t ≤ y.2)).get
              ⟨m, Nat.lt_trans hm hn⟩).2 < x.2 := by
  have hdef : VibrationPatternGenerator.get_dominant_emotions e t =
      List.insertionSort descByValue
        ((VibrationPatternGenerator.emotion_values e).filter (fun x => t ≤ x.2)) := rfl
  rw [hdef]
  refine ⟨List.perm_insertionSort descByValue _,
    List.sorted_insertionSort descByValue _, ?_⟩
  intro x hx
  constructor
  · intro z hz
    obtain ⟨rest, hrest⟩ :
        ∃ rest, List.insertionSort descByValue
          ((VibrationPatternGenerator.emotion_values e).filter (fun x => t ≤ x.2)) =
            x :: rest := by
      cases hS : List.insertionSort descByValue
          ((VibrationPatternGenerator.emotion_values e).filter (fun x => t ≤ x.2)) with
      | nil =>
        rw [hS] at hx
        cases hx
      | cons y ys =>
        rw [hS] at hx
        exact ⟨ys, by rw [← Option.some.inj hx]⟩
    have hzs : z ∈ List.insertionSort descByValue
        ((VibrationPatternGenerator.emotion_values e).filter (fun x => t ≤ x.2)) :=
      (List.mem_insertionSort descByValue).mpr hz
    have hsorted := List.sorted_insertionSort descByValue
      ((VibrationPatternGenerator.emotion_values e).filter (fun x => t ≤ x.2))
    rw [hrest] at hzs hsorted
    rcases List.mem_cons.mp hzs with rfl | hzrest
    · exact le_refl _
    · exact List.rel_of_sorted_cons hsorted z hzrest
  · exact insertionSort_descByValue_head _ x hx

/-- Concrete instantiation of the dominant-emotion ordering: with joy and
fun tied at 3, joy (first in the fixed order) is the head, and the other
qualifying value is bounded by the head's value. -/
theorem get_dominant_emotions_spec_witness :
    (VibrationPatternGenerator.get_dominant_emotions ⟨3, 3, 0, 0⟩ 2).head? =
        some ("joy", 3) ∧
      (("fun", (3 : ℚ))).2 ≤ (("joy", (3 : ℚ))).2 :=
  ⟨by decide,
    ((get_dominant_emotions_spec ⟨3, 3, 0, 0⟩ 2).2.2 ("joy", 3) (by decide)).1
      ("fun", 3) (by decide)⟩

/-- If every transport attempt fails (an exception or a non-200 status),
the Arduino send loop makes exactly as many attempts as it has iterations
and reports failure. -/
theorem send_pattern_loop_all_fail (transport : ℕ → HttpSendResult)
    (hfail : ∀ i, transport i ≠ HttpSendResult.status 200) :
    ∀ k i, ArduinoController.send_pattern_loop transport k i = (false, k) := by
  intro k
  induction k with
  | zero => intro i; rfl
  | succ n ih =>
    intro i
    cases hT : transport i with
    | status code =>
      have hne : ¬ (code = 200) := fun hc => hfail i (by rw [hT, hc])
      simp [ArduinoController.send_pattern_loop, hT, hne, ih (i + 1)]
    | raises =>
      simp [ArduinoController.send_pattern_loop, hT, ih (i + 1)]

/-- C5: a connected controller with retry_count 3 whose every transport
send fails performs exactly 3 send attempts and returns False; the model
is a total function, so no transport exception reaches the caller. -/
theorem send_pattern_exhausts_retries (transport : ℕ → HttpSendResult)
    (p : VibrationPattern) (hfail : ∀ i, transport i ≠ HttpSendResult.status 200) :
    ArduinoController.send_pattern ⟨true, 3⟩ p transport = (false, 3) := by
  unfold ArduinoController.send_pattern
  simp [send_pattern_loop_all_fail transport hfail 3 0]

/-- Concrete instantiation of retry exhaustion with a transport that
always raises. -/
theorem send_pattern_exhausts_retries_witness :
    ArduinoController.send_pattern ⟨true, 3⟩ ⟨[⟨1, 300⟩], 200, 1⟩
      (fun _ => HttpSendResult.raises) = (false, 3) :=
  send_pattern_exhausts_retries (fun _ => HttpSendResult.raises)
    ⟨[⟨1, 300⟩], 200, 1⟩ (fun _ h => HttpSendResult.noConfusion h)

/-- C6: send_pattern on a disconnected controller returns False with zero
transport attempts, for both the HTTP and the WebSocket controller. -/
theorem send_pattern_disconnected (stA : ArduinoControllerState)
    (stW : WebSocketControllerState) (p : VibrationPattern)
    (tA : ℕ → HttpSendResult) (tW : ℕ → WsAttemptResult)
    (hA : stA.connected = false) (hW : stW.connected = false) :
    ArduinoController.send_pattern stA p tA = (false, 0) ∧
    WebSocketController.send_pattern stW p tW = (false, 0) := by
  constructor
  · unfold ArduinoController.send_pattern
    rw [if_pos hA]
  · unfold WebSocketController.send_pattern
    rw [if_pos hW]

/-- Concrete instantiation of the disconnected short-circuit. -/
theorem send_pattern_disconnected_witness :
    ArduinoController.send_pattern ⟨false, 3⟩ ⟨[⟨1, 300⟩], 200, 1⟩
        (fun _ => HttpSendResult.raises) = (false, 0) ∧
      WebSocketController.send_pattern ⟨false, 3⟩ ⟨[⟨1, 300⟩], 200, 1⟩
        (fun _ => WsAttemptResult.response true) = (false, 0) :=
  send_pattern_disconnected ⟨false, 3⟩ ⟨false, 3⟩ ⟨[⟨1, 300⟩], 200, 1⟩
    (fun _ => HttpSendResult.raises) (fun _ => WsAttemptResult.response true) rfl rfl

/-- C10: the configuration validator accepts retry_count = 0 (it only
requires retry_count >= 0); a connected controller with retry_count 0
returns False from send_pattern after zero transport attempts; and the
base controller's retry loop with retry_count 0 invokes the operation zero
times and returns None. -/
theorem retry_count_zero_behavior (p : VibrationPattern) (t : ℕ → HttpSendResult)
    (op : ℕ → OpResult ℕ) :
    (mkBaseControllerConfig "localhost" 80 5 0 1).isOk = true ∧
    ArduinoController.send_pattern ⟨true, 0⟩ p t = (false, 0) ∧
    BaseController.retry_with_backoff op 0 0 = (none, 0) :=
  ⟨by decide, rfl, rfl⟩
